import Mathlib

/-!
Shallow embedding of the voice-assistant session service
(`src/state.py`, `src/assistant.py`, `src/session_manager.py`,
`src/main.py`) and proofs about its claims.

Modelling conventions:
* Python dict payloads pushed to Server-Sent-Event queues are modelled as
  association lists `List (String × JVal)`; the one nested dict (the
  `message` value of a `chat_message` payload) is modelled by the dedicated
  `JVal.jmsg` constructor holding a `ChatMsg`.
* Each `asyncio.Queue` used for SSE fan-out is modelled as the list of
  events ever enqueued on it, in enqueue order (`put_nowait` appends and
  never blocks; the queues are unbounded).
* The SQL transcript store is modelled as `DB`, a list of rows in insertion
  order (which is also `created_at` order, matching the `ORDER BY` of the
  load query).
* Exceptions that the Python code catches are modelled by explicit boolean
  or `Option String` parameters describing whether the external call failed
  and with which message; the Python functions under study catch those
  exceptions, so their Lean counterparts are total.
-/

/-- A transcript entry as kept in `SessionState.chat_history`:
the dict `\x7b"role": role, "text": text\x7d` of `state.py`. -/
structure ChatMsg where
  role : String
  text : String
deriving DecidableEq, Repr

/-- JSON-like values appearing in broadcast payloads. -/
inductive JVal where
  | jstr : String → JVal
  | jbool : Bool → JVal
  | jnull : JVal
  | jmsg : ChatMsg → JVal
deriving DecidableEq, Repr

/-- A broadcast payload: a Python dict, as an association list. -/
abbrev Event := List (String × JVal)

/-- The `Optional[str]` field `last_error`, rendered as a JSON value
(`None` becomes JSON null). -/
def jopt : Option String → JVal
  | none => JVal.jnull
  | some v => JVal.jstr v

/-- Python truthiness of an `Optional[str]`: `None` and the empty string
are falsy. -/
def pyTruthy : Option String → Bool
  | none => false
  | some s => s ≠ ""

/-- A row of the `chat_messages` table (`database.py`): session id, role,
content.  Rows are kept in insertion order, which matches `created_at`
order. -/
structure DBRow where
  session_id : String
  role : String
  content : String
deriving DecidableEq, Repr

/-- The transcript store backing `SessionLocal` in `database.py`. -/
structure DB where
  rows : List DBRow
deriving DecidableEq, Repr

/-- The mutable per-session state of `state.py`.  The `assistant_task` and
`assistant_instance` handles are owned by `main.py` and are not needed by
any claim, so they are not part of this record; `sse_queues` holds, per
subscriber, the list of events enqueued for it. -/
structure SessionState where
  session_id : String
  state : String
  message : String
  last_error : Option String
  connected : Bool
  sse_queues : List (List Event)
  chat_history : List ChatMsg
deriving DecidableEq, Repr

/-- History load of `SessionState._load_history_from_db`: all rows of this
session, in stored (`created_at`) order.  The surrounding `try/except`
means a failing store yields no history; `loadFails` models that branch. -/
def loadHistory (db : DB) (loadFails : Bool) (sid : String) : List ChatMsg :=
  if loadFails then []
  else (db.rows.filter (fun r => r.session_id = sid)).map
    (fun r => { role := r.role, text := r.content })

/-- Constructor `SessionState.__init__`: fresh state `"idle"`, default
message, no error, not connected, no subscribers, history loaded from the
database. -/
def SessionState.init (db : DB) (loadFails : Bool) (sid : String) : SessionState :=
  { session_id := sid
    state := "idle"
    message := "Select \x27Start Session\x27 to begin"
    last_error := none
    connected := false
    sse_queues := []
    chat_history := loadHistory db loadFails sid }

/-- Body of `SessionState.broadcast_event`: `put_nowait` the payload on
every active SSE queue. -/
def SessionState.broadcast_event (s : SessionState) (data : Event) : SessionState :=
  { s with sse_queues := s.sse_queues.map (fun q => q ++ [data]) }

/-- The payload built by `SessionState.broadcast_status`. -/
def statusPayload (s : SessionState) : Event :=
  [("type", JVal.jstr "status"),
   ("state", JVal.jstr s.state),
   ("message", JVal.jstr s.message),
   ("last_error", jopt s.last_error),
   ("connected", JVal.jbool s.connected)]

/-- `SessionState.broadcast_status`: push the current status payload to all
SSE queues. -/
def SessionState.broadcast_status (s : SessionState) : SessionState :=
  s.broadcast_event (statusPayload s)

/-- `SessionState.update`: set `state` and `message`; set `last_error` only
when `error` is truthy; recompute `connected` by the two-branch membership
test (states in neither set leave `connected` untouched); then broadcast a
status event. -/
def SessionState.update (s : SessionState) (state message : String)
    (error : Option String) : SessionState :=
  let s1 := { s with state := state, message := message }
  let s2 := if pyTruthy error then { s1 with last_error := error } else s1
  let s3 :=
    if state ∈ ["ready", "listening", "processing", "assistant_speaking"] then
      { s2 with connected := true }
    else if state ∈ ["stopped", "idle", "error"] then
      { s2 with connected := false }
    else s2
  s3.broadcast_status

/-- The `chat_message` payload broadcast by `add_chat_message`. -/
def chatPayload (m : ChatMsg) : Event :=
  [("type", JVal.jstr "chat_message"), ("message", JVal.jmsg m)]

/-- `SessionState.add_chat_message`: on empty text, return unchanged;
otherwise append the turn to the in-memory history, attempt the database
insert (a failing insert is caught and only logged: `saveFails` models the
`except` branch), then broadcast the `chat_message` event. -/
def SessionState.add_chat_message (s : SessionState) (db : DB)
    (saveFails : Bool) (role text : String) : SessionState × DB :=
  if text = "" then (s, db)
  else
    let msg : ChatMsg := { role := role, text := text }
    let s1 := { s with chat_history := s.chat_history ++ [msg] }
    let db1 :=
      if saveFails then db
      else { db with rows := db.rows ++ [{ session_id := s.session_id, role := role, content := text }] }
    (s1.broadcast_event (chatPayload msg), db1)

/-- The snapshot payload yielded by `sse_endpoint` in `main.py` to a newly
attached subscriber.  Note it carries `type`, `state`, `message` and
`connected` only — unlike `statusPayload` it has no `last_error` key. -/
def snapshotPayload (s : SessionState) : Event :=
  [("type", JVal.jstr "status"),
   ("state", JVal.jstr s.state),
   ("message", JVal.jstr s.message),
   ("connected", JVal.jbool s.connected)]

/-- Subscription step of `sse_endpoint`s `event_generator` (`main.py`):
register a fresh empty queue and immediately yield the snapshot payload
directly into the new client stream, before serving anything from the
queue.  Returns the updated session and the event delivered first. -/
def SessionState.addSubscriber (s : SessionState) : SessionState × Event :=
  ({ s with sse_queues := s.sse_queues ++ [[]] }, snapshotPayload s)

/-- The standard base64 alphabet. -/
def b64Alphabet : List Char :=
  "ABCDEFGHIJKLMNOPQRSTUVWXYZabcdefghijklmnopqrstuvwxyz0123456789+/".data

/-- Character for a 6-bit group. -/
def b64Char (n : Nat) : Char := b64Alphabet.getD n 'A'

/-- Base64 of a byte list, three input bytes per four output characters,
with `=` padding, as `base64.b64encode` computes it. -/
def b64Chunks : List Nat → List Char
  | [] => []
  | [a] =>
      [b64Char (a / 4), b64Char (a % 4 * 16), '=', '=']
  | [a, b] =>
      [b64Char (a / 4), b64Char (a % 4 * 16 + b / 16), b64Char (b % 16 * 4), '=']
  | a :: b :: c :: rest =>
      b64Char (a / 4) :: b64Char (a % 4 * 16 + b / 16) ::
        b64Char (b % 16 * 4 + c / 64) :: b64Char (c % 64) :: b64Chunks rest

/-- `base64.b64encode(delta).decode("utf-8")` on a byte list. -/
def base64Encode (bytes : List Nat) : String := String.mk (b64Chunks bytes)

/-- The discriminated upstream events consumed by the run loop, per
`ServerEventType` in `assistant.py`.  `audioDelta` carries the `delta`
attribute when present (`none` models a missing attribute, `some []` an
empty payload); `errorEvt` carries the optional `event.error.message`. -/
inductive ServerEvent where
  | sessionUpdated : ServerEvent
  | speechStarted : ServerEvent
  | speechStopped : ServerEvent
  | audioDelta : Option (List Nat) → ServerEvent
  | audioDone : ServerEvent
  | errorEvt : Option String → ServerEvent
deriving DecidableEq, Repr

/-- The `control: stop_playback` payload. -/
def stopPlaybackPayload : Event :=
  [("type", JVal.jstr "control"), ("action", JVal.jstr "stop_playback")]

/-- The `audio` payload carrying a base64 string. -/
def audioPayload (b64 : String) : Event :=
  [("type", JVal.jstr "audio"), ("audio", JVal.jstr b64)]

/-- The `log` payload. -/
def logPayload (m : String) : Event :=
  [("type", JVal.jstr "log"), ("msg", JVal.jstr m)]

/-- The `BasicVoiceAssistant` of `assistant.py`.  `session` is its
`state_manager`; `connection` records whether the upstream connection
handle is held; `cancels` is a ghost counter of how many
`conn.response.cancel()` requests the assistant has issued. -/
structure BasicVoiceAssistant where
  session : SessionState
  endpoint : String
  key : String
  model : String
  voice : String
  instructions : String
  connection : Bool
  response_cancelled : Bool
  stopping : Bool
  cancels : Nat
deriving DecidableEq, Repr

/-- Constructor `BasicVoiceAssistant.__init__`.  The source initialises
`_response_cancelled` to `False,` — a one-element tuple, which is truthy —
so its boolean abstraction starts out `true`; `run` resets it to a genuine
`False` right after connecting, before any event is handled. -/
def BasicVoiceAssistant.init (s : SessionState) (endpoint key model voice instructions : String) :
    BasicVoiceAssistant :=
  { session := s
    endpoint := endpoint
    key := key
    model := model
    voice := voice
    instructions := instructions
    connection := false
    response_cancelled := true
    stopping := false
    cancels := 0 }

/-- `BasicVoiceAssistant._handle_event`: route one upstream event.  Note
the `speechStarted` branch updates the session to `"listening"` first and
only then tests whether the session state is `"assistant_speaking"` or
`"processing"`, exactly as the source does. -/
def BasicVoiceAssistant.handle_event (a : BasicVoiceAssistant) :
    ServerEvent → BasicVoiceAssistant
  | ServerEvent.sessionUpdated =>
      { a with session := a.session.update "ready" "Ready" none }
  | ServerEvent.speechStarted =>
      let s1 := a.session.update "listening" "Listening..." none
      let s2 := s1.broadcast_event stopPlaybackPayload
      if s2.state ∈ ["assistant_speaking", "processing"] then
        { a with session := s2, response_cancelled := true, cancels := a.cancels + 1 }
      else
        { a with session := s2 }
  | ServerEvent.speechStopped =>
      { a with session := a.session.update "processing" "Processing..." none }
  | ServerEvent.audioDelta delta =>
      if a.response_cancelled then a
      else
        let s1 :=
          if a.session.state ≠ "assistant_speaking" then
            a.session.update "assistant_speaking" "Assistant Speaking..." none
          else a.session
        match delta with
        | some bytes =>
            if bytes ≠ [] then
              { a with session := s1.broadcast_event (audioPayload (base64Encode bytes)) }
            else
              { a with session := s1 }
        | none => { a with session := s1 }
  | ServerEvent.audioDone =>
      { a with response_cancelled := false,
               session := a.session.update "ready" "Finished speaking." none }
  | ServerEvent.errorEvt m =>
      let msg := m.getD "Unknown Error"
      { a with session := a.session.update "error" ("Azure Error: " ++ msg) (some msg) }

/-- One observable step of the run loop: either an upstream event arrives,
or a concurrent `stop()` call sets the `_stopping` flag between
iterations. -/
inductive LoopStep where
  | evt : ServerEvent → LoopStep
  | stopRequest : LoopStep
deriving DecidableEq, Repr

/-- The `async for event in conn` loop of `run`: before handling each
event the `_stopping` flag is checked and, when set, the loop breaks. -/
def BasicVoiceAssistant.runLoop (a : BasicVoiceAssistant) :
    List LoopStep → BasicVoiceAssistant
  | [] => a
  | LoopStep.stopRequest :: rest =>
      BasicVoiceAssistant.runLoop { a with stopping := true } rest
  | LoopStep.evt e :: rest =>
      if a.stopping then a
      else BasicVoiceAssistant.runLoop (a.handle_event e) rest

/-- `BasicVoiceAssistant.run`.  `connectFailure = some m` models an
exception (message `m`) raised while establishing the upstream stream;
otherwise the connection is acquired, `_response_cancelled` is reset, the
session goes `"ready"`, and the loop consumes `steps`; `loopFailure =
some m` models an exception raised in the loop after the processed prefix
`steps`.  Either exception is caught by the `except` clause, which updates
the session to `"error"`; the `finally` clause then always clears the
connection handle and updates the session to `"stopped"`.  The function is
total: no input makes it propagate a failure. -/
def BasicVoiceAssistant.run (a : BasicVoiceAssistant) (connectFailure : Option String)
    (steps : List LoopStep) (loopFailure : Option String) : BasicVoiceAssistant :=
  let a1 := { a with session :=
    a.session.broadcast_event (logPayload ("Connecting to " ++ a.endpoint ++ "...")) }
  let a2 :=
    match connectFailure with
    | some m =>
        { a1 with session := a1.session.update "error" ("Crash: " ++ m) (some m) }
    | none =>
        let b0 := { a1 with connection := true, response_cancelled := false }
        let b1 := { b0 with session := b0.session.update "ready" "Session Ready. Speak now." none }
        let b2 := b1.runLoop steps
        match loopFailure with
        | none => b2
        | some m =>
            { b2 with session := b2.session.update "error" ("Crash: " ++ m) (some m) }
  { a2 with connection := false,
            session := a2.session.update "stopped" "Session Ended" none }

/-- The `SessionManager` of `session_manager.py`: its `_sessions` dict,
as an association list keyed by session id. -/
structure SessionManager where
  sessions : List (String × SessionState)
deriving DecidableEq, Repr

/-- `SessionManager.get_session`: return the stored session for
`session_id`, or construct, store and return a fresh one. -/
def SessionManager.get_session (m : SessionManager) (db : DB) (loadFails : Bool)
    (session_id : String) : SessionState × SessionManager :=
  match m.sessions.lookup session_id with
  | some s => (s, m)
  | none =>
      let s := SessionState.init db loadFails session_id
      (s, { sessions := m.sessions ++ [(session_id, s)] })

/-- An observable fan-out operation on a session: a subscriber attaches
(`sse_endpoint` registering a queue) or an event is broadcast
(`broadcast_event`). -/
inductive SubOp where
  | subscribe : SubOp
  | broadcast : Event → SubOp
deriving DecidableEq, Repr

/-- Apply one fan-out operation to the session, per the source. -/
def applySubOp (s : SessionState) : SubOp → SessionState
  | SubOp.subscribe => s.addSubscriber.1
  | SubOp.broadcast e => s.broadcast_event e

/-- Events broadcast by a list of operations, in order. -/
def broadcastsOf : List SubOp → List Event
  | [] => []
  | SubOp.subscribe :: r => broadcastsOf r
  | SubOp.broadcast e :: r => e :: broadcastsOf r

/-- Modelled from the spec (fan-out invariant): every subscriber receives
exactly the events broadcast after it attached, each exactly once, in
broadcast order; a subscriber attached after a broadcast does not receive
that event.  Queue list order is attach order. -/
def specFanOutQueues : List SubOp → List (List Event)
  | [] => []
  | SubOp.subscribe :: r => broadcastsOf r :: specFanOutQueues r
  | SubOp.broadcast _ :: r => specFanOutQueues r

/-- One recorded call to `SessionState.update`. -/
structure UpdateCall where
  state : String
  message : String
  error : Option String
deriving DecidableEq, Repr

/-- Replay a sequence of `update` calls on a session. -/
def applyUpdates (s : SessionState) (calls : List UpdateCall) : SessionState :=
  calls.foldl (fun t c => t.update c.state c.message c.error) s

/-- All state strings the program ever passes to `SessionState.update`
other than `"starting"`: these are exactly the states covered by the
two membership tests that recompute `connected`. -/
def coveredStates : List String :=
  ["ready", "listening", "processing", "assistant_speaking", "stopped", "idle", "error"]

/-- States in which the session counts as connected. -/
def connectedStates : List String :=
  ["ready", "listening", "processing", "assistant_speaking"]

/-- A concrete empty transcript store, used as input to sample runs. -/
def demoDB : DB := { rows := [] }

/-- A concrete freshly constructed session. -/
def demoSession : SessionState := SessionState.init demoDB false "demo"

/-- A concrete freshly constructed assistant. -/
def demoAssistant : BasicVoiceAssistant :=
  BasicVoiceAssistant.init demoSession "wss://example" "key" "gpt" "voice" "be helpful"

/-- A concrete assistant caught mid-utterance: session in state
`"assistant_speaking"` with forwarding armed, as it is right after a first
audio chunk of a response was handled. -/
def demoSpeakingAssistant : BasicVoiceAssistant :=
  { demoAssistant with
      session := { demoSession with state := "assistant_speaking", connected := true }
      connection := true
      response_cancelled := false }

theorem update_state (s : SessionState) (st m : String) (e : Option String) :
    (s.update st m e).state = st := by
  unfold SessionState.update SessionState.broadcast_status SessionState.broadcast_event
  repeat' split
  all_goals rfl

theorem update_message (s : SessionState) (st m : String) (e : Option String) :
    (s.update st m e).message = m := by
  unfold SessionState.update SessionState.broadcast_status SessionState.broadcast_event
  repeat' split
  all_goals rfl

theorem update_session_id (s : SessionState) (st m : String) (e : Option String) :
    (s.update st m e).session_id = s.session_id := by
  unfold SessionState.update SessionState.broadcast_status SessionState.broadcast_event
  repeat' split
  all_goals rfl

theorem update_chat_history (s : SessionState) (st m : String) (e : Option String) :
    (s.update st m e).chat_history = s.chat_history := by
  unfold SessionState.update SessionState.broadcast_status SessionState.broadcast_event
  repeat' split
  all_goals rfl

theorem update_last_error (s : SessionState) (st m : String) (e : Option String) :
    (s.update st m e).last_error = if pyTruthy e then e else s.last_error := by
  unfold SessionState.update SessionState.broadcast_status SessionState.broadcast_event
  repeat' split
  all_goals rfl

theorem update_connected (s : SessionState) (st m : String) (e : Option String) :
    (s.update st m e).connected =
      if st ∈ ["ready", "listening", "processing", "assistant_speaking"] then true
      else if st ∈ ["stopped", "idle", "error"] then false
      else s.connected := by
  unfold SessionState.update SessionState.broadcast_status SessionState.broadcast_event
  repeat' split
  all_goals rfl

theorem update_sse_queues (s : SessionState) (st m : String) (e : Option String) :
    (s.update st m e).sse_queues =
      s.sse_queues.map (fun q => q ++ [statusPayload (s.update st m e)]) := by
  unfold SessionState.update SessionState.broadcast_status SessionState.broadcast_event
    statusPayload
  repeat' split
  all_goals rfl

theorem broadcast_preserves_fields (s : SessionState) (e : Event) :
    (s.broadcast_event e).state = s.state ∧
    (s.broadcast_event e).message = s.message ∧
    (s.broadcast_event e).last_error = s.last_error ∧
    (s.broadcast_event e).connected = s.connected ∧
    (s.broadcast_event e).chat_history = s.chat_history ∧
    (s.broadcast_event e).session_id = s.session_id :=
  ⟨rfl, rfl, rfl, rfl, rfl, rfl⟩

/-- C10: calling `add_chat_message` with empty text is a complete no-op —
the session (history and queues included) and the transcript store are
returned exactly as they were, and in particular no `chat_message` event is
enqueued for any subscriber. -/
theorem C10_empty_turn_noop (s : SessionState) (db : DB) (saveFails : Bool)
    (role : String) :
    s.add_chat_message db saveFails role "" = (s, db) := rfl

/-- C8: `update` assigns `last_error` only for a truthy (present and
non-empty) `error` argument; with `None` or the empty string the previous
value is kept, so a previously stored error is only ever overwritten by a
newer non-empty one, never cleared. -/
theorem C8_last_error_sticky (s : SessionState) (st m : String) :
    (s.update st m none).last_error = s.last_error ∧
    (s.update st m (some "")).last_error = s.last_error ∧
    (∀ e : String, e ≠ "" → (s.update st m (some e)).last_error = some e) := by
  refine ⟨?_, ?_, ?_⟩
  · simp [update_last_error, pyTruthy]
  · simp [update_last_error, pyTruthy]
  · intro e he
    simp [update_last_error, pyTruthy, he]

/-- Closed witness for C8 at a concrete session and error. -/
theorem C8_last_error_sticky_witness :
    (demoSession.update "error" "Crash: boom" (some "boom")).last_error = some "boom" :=
  (C8_last_error_sticky demoSession "error" "Crash: boom").2.2 "boom" (by decide)

/-- C9: on non-empty text, `add_chat_message` appends the turn to the
in-memory transcript and broadcasts exactly one `chat_message` event to
every subscriber queue, and it does so whether or not the database insert
fails; a failing insert leaves the store untouched, a succeeding one
appends one row.  The function is total, so a persistence failure never
raises to the caller. -/
theorem C9_record_turn_resilient (s : SessionState) (db : DB) (saveFails : Bool)
    (role text : String) (htext : text ≠ "") :
    (s.add_chat_message db saveFails role text).1.chat_history =
      s.chat_history ++ [{ role := role, text := text }] ∧
    (s.add_chat_message db saveFails role text).1.sse_queues =
      s.sse_queues.map (fun q => q ++ [chatPayload { role := role, text := text }]) ∧
    (saveFails = true → (s.add_chat_message db saveFails role text).2 = db) ∧
    (saveFails = false → (s.add_chat_message db saveFails role text).2.rows =
      db.rows ++ [{ session_id := s.session_id, role := role, content := text }]) := by
  refine ⟨?_, ?_, ?_, ?_⟩ <;>
    simp [SessionState.add_chat_message, SessionState.broadcast_event, htext]
  · intro h; simp [h]
  · intro h; simp [h]

/-- Closed witness for C9: a user turn recorded while the store is failing
still lands in the history and is still broadcast. -/
theorem C9_record_turn_resilient_witness :
    ({ demoSession with sse_queues := [[]] }.add_chat_message demoDB true "user" "hi").1.chat_history =
      [{ role := "user", text := "hi" }] ∧
    ({ demoSession with sse_queues := [[]] }.add_chat_message demoDB true "user" "hi").1.sse_queues =
      [[chatPayload { role := "user", text := "hi" }]] ∧
    ({ demoSession with sse_queues := [[]] }.add_chat_message demoDB true "user" "hi").2 = demoDB := by
  have h := C9_record_turn_resilient { demoSession with sse_queues := [[]] } demoDB true
    "user" "hi" (by decide)
  exact ⟨by simpa [demoSession, SessionState.init, demoDB, loadHistory] using h.1,
    by simpa using h.2.1, h.2.2.1 rfl⟩

theorem statusPayload_update (s : SessionState) (st m : String) (e : Option String) :
    statusPayload (s.update st m e) =
      [("type", JVal.jstr "status"),
       ("state", JVal.jstr st),
       ("message", JVal.jstr m),
       ("last_error", jopt (if pyTruthy e then e else s.last_error)),
       ("connected", JVal.jbool
         (if st ∈ ["ready", "listening", "processing", "assistant_speaking"] then true
          else if st ∈ ["stopped", "idle", "error"] then false
          else s.connected))] := by
  simp [statusPayload, update_state, update_message, update_last_error, update_connected]

theorem update_then_broadcast_queues (s : SessionState) (st m : String)
    (e : Option String) (ev : Event) :
    ((s.update st m e).broadcast_event ev).sse_queues =
      s.sse_queues.map (fun q => q ++ [statusPayload (s.update st m e), ev]) := by
  simp [SessionState.broadcast_event, update_sse_queues, List.map_map, Function.comp]

/-- C1 (code bug): on a `speechStarted` event, `_handle_event` first updates
the session to `"listening"` and only afterwards tests
`state_manager.state ∈ \x7b"assistant_speaking", "processing"\x7d`; the test
therefore always sees `"listening"` and the barge-in branch is dead code.
At the failing input — `speechStarted` arriving while the session is
`assistant_speaking` — the session does go to `"listening"`, but no cancel
request is ever issued and `_response_cancelled` stays `false`, contrary to
the claimed (and commented, `# Interrupt if speaking`) behaviour.  The
second conjunct shows the branch is dead for every assistant state. -/
theorem C1_barge_in_never_cancels :
    ((demoSpeakingAssistant.handle_event ServerEvent.speechStarted).session.state = "listening" ∧
     (demoSpeakingAssistant.handle_event ServerEvent.speechStarted).cancels = 0 ∧
     (demoSpeakingAssistant.handle_event ServerEvent.speechStarted).response_cancelled = false) ∧
    (∀ a : BasicVoiceAssistant,
      (a.handle_event ServerEvent.speechStarted).cancels = a.cancels ∧
      (a.handle_event ServerEvent.speechStarted).response_cancelled = a.response_cancelled ∧
      (a.handle_event ServerEvent.speechStarted).session.state = "listening" ∧
      (a.handle_event ServerEvent.speechStarted).session.sse_queues =
        a.session.sse_queues.map (fun q =>
          q ++ [statusPayload (a.session.update "listening" "Listening..." none),
                stopPlaybackPayload])) := by
  constructor
  · decide
  · intro a
    have hst : ((a.session.update "listening" "Listening..." none).broadcast_event
        stopPlaybackPayload).state = "listening" := by
      simp [SessionState.broadcast_event, update_state]
    simp [BasicVoiceAssistant.handle_event, hst, update_then_broadcast_queues]

theorem handle_delta_cancelled (a : BasicVoiceAssistant) (d : Option (List Nat))
    (h : a.response_cancelled = true) :
    a.handle_event (ServerEvent.audioDelta d) = a := by
  simp [BasicVoiceAssistant.handle_event, h]

theorem handle_delta_speaking (a : BasicVoiceAssistant) (bytes : List Nat)
    (h : a.response_cancelled = false) (hs : a.session.state = "assistant_speaking")
    (hb : bytes ≠ []) :
    a.handle_event (ServerEvent.audioDelta (some bytes)) =
      { a with session := a.session.broadcast_event (audioPayload (base64Encode bytes)) } := by
  simp [BasicVoiceAssistant.handle_event, h, hs, hb]

theorem handle_delta_fresh (a : BasicVoiceAssistant) (bytes : List Nat)
    (h : a.response_cancelled = false) (hs : a.session.state ≠ "assistant_speaking")
    (hb : bytes ≠ []) :
    a.handle_event (ServerEvent.audioDelta (some bytes)) =
      { a with session := (a.session.update "assistant_speaking" "Assistant Speaking..."
          none).broadcast_event (audioPayload (base64Encode bytes)) } := by
  simp [BasicVoiceAssistant.handle_event, h, hs, hb]

theorem handle_done_eq (a : BasicVoiceAssistant) :
    a.handle_event ServerEvent.audioDone =
      { a with response_cancelled := false,
               session := a.session.update "ready" "Finished speaking." none } := rfl

/-- The status payload produced by the transition to `assistant_speaking`,
as a function of the previous `last_error`. -/
def speakingStatusPayload (le : Option String) : Event :=
  [("type", JVal.jstr "status"),
   ("state", JVal.jstr "assistant_speaking"),
   ("message", JVal.jstr "Assistant Speaking..."),
   ("last_error", jopt le),
   ("connected", JVal.jbool true)]

theorem speaking_payload_eq (s : SessionState) :
    statusPayload (s.update "assistant_speaking" "Assistant Speaking..." none) =
      speakingStatusPayload s.last_error := by
  simp [statusPayload_update, speakingStatusPayload, pyTruthy]

/-- C4: an assistant audio chunk arriving while `_response_cancelled` is
true is dropped with no observable effect at all; while it is false, a
chunk puts the session in `assistant_speaking` (skipping the status update
when it already is), and a chunk with a non-empty payload is forwarded to
every subscriber queue as one `audio` event carrying the base64 payload;
`audioDone` clears `_response_cancelled`, so the next chunk is again
forwarded and transitions the session back to `assistant_speaking`. -/
theorem C4_audio_gating (a : BasicVoiceAssistant) (d : Option (List Nat)) (bytes : List Nat) :
    (a.response_cancelled = true → a.handle_event (ServerEvent.audioDelta d) = a) ∧
    (a.response_cancelled = false →
      (a.handle_event (ServerEvent.audioDelta d)).session.state = "assistant_speaking" ∧
      (bytes ≠ [] →
        (a.session.state = "assistant_speaking" →
          (a.handle_event (ServerEvent.audioDelta (some bytes))).session.sse_queues =
            a.session.sse_queues.map (fun q => q ++ [audioPayload (base64Encode bytes)])) ∧
        (a.session.state ≠ "assistant_speaking" →
          (a.handle_event (ServerEvent.audioDelta (some bytes))).session.sse_queues =
            a.session.sse_queues.map (fun q =>
              q ++ [speakingStatusPayload a.session.last_error,
                    audioPayload (base64Encode bytes)])))) ∧
    (a.handle_event ServerEvent.audioDone).response_cancelled = false ∧
    (bytes ≠ [] →
      ((a.handle_event ServerEvent.audioDone).handle_event
          (ServerEvent.audioDelta (some bytes))).session.state = "assistant_speaking" ∧
      ((a.handle_event ServerEvent.audioDone).handle_event
          (ServerEvent.audioDelta (some bytes))).session.sse_queues =
        (a.handle_event ServerEvent.audioDone).session.sse_queues.map (fun q =>
          q ++ [speakingStatusPayload a.session.last_error,
                audioPayload (base64Encode bytes)])) := by
  refine ⟨fun h => handle_delta_cancelled a d h, fun h => ⟨?_, fun hb => ⟨?_, ?_⟩⟩, ?_, fun hb => ⟨?_, ?_⟩⟩
  · by_cases hs : a.session.state = "assistant_speaking"
    · cases d with
      | none => simp [BasicVoiceAssistant.handle_event, h, hs]
      | some bs =>
          by_cases hbs : bs = [] <;>
            simp [BasicVoiceAssistant.handle_event, h, hs, hbs, SessionState.broadcast_event]
    · cases d with
      | none => simp [BasicVoiceAssistant.handle_event, h, hs, update_state]
      | some bs =>
          by_cases hbs : bs = [] <;>
            simp [BasicVoiceAssistant.handle_event, h, hs, hbs,
              SessionState.broadcast_event, update_state]
  · intro hs
    rw [handle_delta_speaking a bytes h hs hb]
    simp [SessionState.broadcast_event]
  · intro hs
    rw [handle_delta_fresh a bytes h hs hb]
    simp [update_then_broadcast_queues, speaking_payload_eq]
  · rw [handle_done_eq]
  · have hrc : (a.handle_event ServerEvent.audioDone).response_cancelled = false := by
      rw [handle_done_eq]
    have hne : (a.handle_event ServerEvent.audioDone).session.state ≠ "assistant_speaking" := by
      rw [handle_done_eq]
      simp [update_state]
    rw [handle_delta_fresh _ bytes hrc hne hb]
    simp [SessionState.broadcast_event, update_state]
  · have hrc : (a.handle_event ServerEvent.audioDone).response_cancelled = false := by
      rw [handle_done_eq]
    have hne : (a.handle_event ServerEvent.audioDone).session.state ≠ "assistant_speaking" := by
      rw [handle_done_eq]
      simp [update_state]
    have hle : (a.handle_event ServerEvent.audioDone).session.last_error =
        a.session.last_error := by
      rw [handle_done_eq]
      simp [update_last_error, pyTruthy]
    rw [handle_delta_fresh _ bytes hrc hne hb]
    simp [update_then_broadcast_queues, speaking_payload_eq, hle]

/-- Closed witness for C4: a concrete dropped chunk while cancelled, a
concrete forwarded chunk from the speaking state, and a concrete re-armed
chunk after `audioDone`. -/
theorem C4_audio_gating_witness :
    ({ demoSpeakingAssistant with response_cancelled := true }.handle_event
        (ServerEvent.audioDelta (some [1, 2, 3])) =
      { demoSpeakingAssistant with response_cancelled := true }) ∧
    ((demoSpeakingAssistant.handle_event
        (ServerEvent.audioDelta (some [1, 2, 3]))).session.state = "assistant_speaking") ∧
    ((demoSpeakingAssistant.handle_event ServerEvent.audioDone).handle_event
        (ServerEvent.audioDelta (some [1, 2, 3]))).session.state = "assistant_speaking" := by
  refine ⟨(C4_audio_gating { demoSpeakingAssistant with response_cancelled := true }
      (some [1, 2, 3]) [1, 2, 3]).1 rfl, ?_, ?_⟩
  · exact ((C4_audio_gating demoSpeakingAssistant (some [1, 2, 3]) [1, 2, 3]).2.1 rfl).1
  · exact ((C4_audio_gating demoSpeakingAssistant (some [1, 2, 3]) [1, 2, 3]).2.2.2
      (by decide)).1

theorem applyUpdates_connected_invariant (calls : List UpdateCall) (s : SessionState)
    (hs : s.connected = true ↔ s.state ∈ connectedStates)
    (h : ∀ c ∈ calls, c.state ∈ coveredStates) :
    ((applyUpdates s calls).connected = true ↔
      (applyUpdates s calls).state ∈ connectedStates) := by
  induction calls generalizing s with
  | nil => exact hs
  | cons c rest ih =>
      have hc : c.state ∈ coveredStates := h c (List.mem_cons_self c rest)
      have hstep : ((s.update c.state c.message c.error).connected = true ↔
          (s.update c.state c.message c.error).state ∈ connectedStates) := by
        by_cases h1 : c.state ∈ ["ready", "listening", "processing", "assistant_speaking"]
        · simp [update_connected, update_state, h1, connectedStates]
        · have h2 : c.state ∈ ["stopped", "idle", "error"] := by
            simp only [coveredStates, List.mem_cons, List.not_mem_nil, or_false] at hc
            rcases hc with h' | h' | h' | h' | h' | h' | h' <;> rw [h'] at h1 ⊢ <;> simp_all
          simp [update_connected, update_state, h1, h2, connectedStates]
      exact ih (s.update c.state c.message c.error) hstep
        (fun c' hc' => h c' (List.mem_cons_of_mem c hc'))

/-- C2 counterexample: the two-branch membership test in `update` covers
only seven states; the program also calls `update("starting", …)`
(`main.py`, `start_session`), and on that call `connected` is left at its
previous value.  After `update("ready", …)` followed by
`update("starting", …)` the session has `connected = true` while its state
`"starting"` is not among the connected states, so connected-iff-state
fails for this sequence of `update` calls. -/
theorem C2_connected_iff_counterexample :
    (((SessionState.init demoDB false "s").update "ready" "Session Ready. Speak now."
        none).update "starting" "Starting session..." none).connected = true ∧
    (((SessionState.init demoDB false "s").update "ready" "Session Ready. Speak now."
        none).update "starting" "Starting session..." none).state = "starting" ∧
    "starting" ∉ ["ready", "listening", "processing", "assistant_speaking"] := by decide

/-- C2 amended: for every sequence of `update` calls whose state arguments
lie among the seven states covered by the membership tests (all states the
program ever passes to `update` except `"starting"`), the session reached
from a fresh one satisfies `connected = true` iff its state is one of
`ready`, `listening`, `processing`, `assistant_speaking`; and no other
session operation (`broadcast_event`, `add_chat_message`, subscriber
attachment) ever assigns `connected`. -/
theorem C2_connected_tracks_state (db : DB) (lf : Bool) (sid : String)
    (calls : List UpdateCall) (h : ∀ c ∈ calls, c.state ∈ coveredStates) :
    ((applyUpdates (SessionState.init db lf sid) calls).connected = true ↔
      (applyUpdates (SessionState.init db lf sid) calls).state ∈ connectedStates) ∧
    (∀ (s : SessionState) (e : Event), (s.broadcast_event e).connected = s.connected) ∧
    (∀ (s : SessionState) (db2 : DB) (sf : Bool) (r t : String),
      (s.add_chat_message db2 sf r t).1.connected = s.connected) ∧
    (∀ s : SessionState, s.addSubscriber.1.connected = s.connected) := by
  refine ⟨?_, fun s e => rfl, ?_, fun s => rfl⟩
  · apply applyUpdates_connected_invariant calls (SessionState.init db lf sid)
    · simp [SessionState.init, connectedStates]
    · exact h
  · intro s db2 sf r t
    by_cases ht : t = "" <;>
      simp [SessionState.add_chat_message, SessionState.broadcast_event, ht]

/-- Closed witness for C2 at a concrete covered call sequence. -/
theorem C2_connected_tracks_state_witness :
    ((applyUpdates (SessionState.init demoDB false "w")
        [{ state := "ready", message := "Session Ready. Speak now.", error := none }]).connected
      = true ↔
      (applyUpdates (SessionState.init demoDB false "w")
        [{ state := "ready", message := "Session Ready. Speak now.", error := none }]).state
        ∈ connectedStates) :=
  (C2_connected_tracks_state demoDB false "w"
    [{ state := "ready", message := "Session Ready. Speak now.", error := none }]
    (by decide)).1

/-- C5: replaying any sequence of subscriber attachments and broadcasts,
every queue present at the start ends with exactly the events broadcast by
the sequence appended in broadcast order, and the queues attached by the
sequence match `specFanOutQueues`: each subscriber holds exactly the events
broadcast after it attached, one copy each, in broadcast order, and a
subscriber attached after a broadcast never holds that event.  Enqueueing
is `put_nowait` on an unbounded queue, modelled as a total append: no
input blocks the broadcaster or another queue. -/
theorem C5_fan_out (ops : List SubOp) (s : SessionState) :
    (ops.foldl applySubOp s).sse_queues =
      s.sse_queues.map (fun q => q ++ broadcastsOf ops) ++ specFanOutQueues ops := by
  induction ops generalizing s with
  | nil => simp [broadcastsOf, specFanOutQueues]
  | cons op rest ih =>
      cases op with
      | subscribe =>
          simp only [List.foldl_cons, applySubOp, SessionState.addSubscriber]
          rw [ih]
          simp [broadcastsOf, specFanOutQueues]
      | broadcast e =>
          simp only [List.foldl_cons, applySubOp, SessionState.broadcast_event]
          rw [ih]
          simp [broadcastsOf, specFanOutQueues, List.map_map, Function.comp]

/-- C3: every execution of `run` — normal upstream close, exception during
setup, exception during the loop, or a requested stop — ends with the
connection handle cleared and the session updated to `stopped` (hence
disconnected); when an exception with message `m` occurred, the session
was first updated to `error`, with `m` stored in `last_error` whenever `m`
is non-empty.  `run` is a total function: no input ever makes it propagate
a failure to its caller. -/
theorem C3_run_exit_funnel (a : BasicVoiceAssistant) (connectFailure : Option String)
    (steps : List LoopStep) (loopFailure : Option String) :
    (a.run connectFailure steps loopFailure).session.state = "stopped" ∧
    (a.run connectFailure steps loopFailure).session.message = "Session Ended" ∧
    (a.run connectFailure steps loopFailure).connection = false ∧
    (a.run connectFailure steps loopFailure).session.connected = false ∧
    (∀ m : String,
      (connectFailure = some m ∨ (connectFailure = none ∧ loopFailure = some m)) →
      (∃ s' : SessionState,
        (a.run connectFailure steps loopFailure).session =
          (s'.update "error" ("Crash: " ++ m) (some m)).update "stopped" "Session Ended" none) ∧
      (m ≠ "" → (a.run connectFailure steps loopFailure).session.last_error = some m)) := by
  cases connectFailure with
  | some m0 =>
      refine ⟨?_, ?_, rfl, ?_, ?_⟩
      · simp [BasicVoiceAssistant.run, update_state]
      · simp [BasicVoiceAssistant.run, update_message]
      · simp [BasicVoiceAssistant.run, update_connected, update_state]
      · intro m hm
        rcases hm with hm | ⟨hm, _⟩
        · have hmm : m0 = m := by simpa using hm
          subst hmm
          refine ⟨⟨_, rfl⟩, fun hne => ?_⟩
          simp [BasicVoiceAssistant.run, update_last_error, pyTruthy, hne]
        · simp at hm
  | none =>
      cases loopFailure with
      | some m0 =>
          refine ⟨?_, ?_, rfl, ?_, ?_⟩
          · simp [BasicVoiceAssistant.run, update_state]
          · simp [BasicVoiceAssistant.run, update_message]
          · simp [BasicVoiceAssistant.run, update_connected, update_state]
          · intro m hm
            rcases hm with hm | ⟨_, hm⟩
            · simp at hm
            · have hmm : m0 = m := by simpa using hm
              subst hmm
              refine ⟨⟨_, rfl⟩, fun hne => ?_⟩
              simp [BasicVoiceAssistant.run, update_last_error, pyTruthy, hne]
      | none =>
          refine ⟨?_, ?_, rfl, ?_, ?_⟩
          · simp [BasicVoiceAssistant.run, update_state]
          · simp [BasicVoiceAssistant.run, update_message]
          · simp [BasicVoiceAssistant.run, update_connected, update_state]
          · intro m hm
            rcases hm with hm | ⟨_, hm⟩ <;> simp at hm

/-- Closed witness for C3: a crash with message `"boom"` mid-loop still
ends in `stopped`, disconnected, with the error recorded first. -/
theorem C3_run_exit_funnel_witness :
    (demoAssistant.run none [LoopStep.evt ServerEvent.sessionUpdated] (some "boom")).session.state
        = "stopped" ∧
    (demoAssistant.run none [LoopStep.evt ServerEvent.sessionUpdated] (some "boom")).connection
        = false ∧
    (demoAssistant.run none [LoopStep.evt ServerEvent.sessionUpdated] (some "boom")).session.last_error
        = some "boom" := by
  have h := C3_run_exit_funnel demoAssistant none [LoopStep.evt ServerEvent.sessionUpdated]
    (some "boom")
  exact ⟨h.1, h.2.2.1, (h.2.2.2.2 "boom" (Or.inr ⟨rfl, rfl⟩)).2 (by decide)⟩

theorem lookup_append_single_of_none (l : List (String × SessionState)) (k : String)
    (s : SessionState) (h : l.lookup k = none) :
    (l ++ [(k, s)]).lookup k = some s := by
  induction l with
  | nil => simp [List.lookup]
  | cons p rest ih =>
      rcases p with ⟨k', v⟩
      simp only [List.cons_append, List.lookup] at h ⊢
      cases hkk : (k == k') with
      | true => rw [hkk] at h; exact Option.noConfusion h
      | false => rw [hkk] at h; exact ih h

theorem mem_of_lookup_some (l : List (String × SessionState)) (k : String)
    (s : SessionState) (h : l.lookup k = some s) : (k, s) ∈ l := by
  induction l with
  | nil => simp [List.lookup] at h
  | cons p rest ih =>
      rcases p with ⟨k', v⟩
      simp only [List.lookup] at h
      cases hkk : (k == k') with
      | true =>
          rw [hkk] at h
          have hk : k = k' := eq_of_beq hkk
          have hv : v = s := Option.some.inj h
          subst hk; subst hv
          exact List.mem_cons_self _ _
      | false =>
          rw [hkk] at h
          exact List.mem_cons_of_mem _ (ih h)

theorem not_mem_keys_of_lookup_none (l : List (String × SessionState)) (k : String)
    (h : l.lookup k = none) : k ∉ l.map Prod.fst := by
  induction l with
  | nil => simp
  | cons p rest ih =>
      rcases p with ⟨k', v⟩
      simp only [List.lookup] at h
      cases hkk : (k == k') with
      | true => rw [hkk] at h; exact Option.noConfusion h
      | false =>
          rw [hkk] at h
          have hk : k ≠ k' := fun he => by simp [he] at hkk
          simp only [List.map_cons, List.mem_cons, not_or]
          exact ⟨hk, ih h⟩

theorem get_session_found (m : SessionManager) (db : DB) (lf : Bool) (id : String)
    (s : SessionState) (h : m.sessions.lookup id = some s) :
    m.get_session db lf id = (s, m) := by
  unfold SessionManager.get_session
  rw [h]

theorem get_session_fresh (m : SessionManager) (db : DB) (lf : Bool) (id : String)
    (h : m.sessions.lookup id = none) :
    m.get_session db lf id =
      (SessionState.init db lf id,
       { sessions := m.sessions ++ [(id, SessionState.init db lf id)] }) := by
  unfold SessionManager.get_session
  rw [h]

/-- C6: `get_session` returns the stored session unchanged when the id is
present; otherwise it constructs a session whose initial state is
`"idle"`, stores it under the id and returns it.  Two calls with the same
id return the same session; when every stored session carries its own key
as `session_id` (true of every session the manager itself creates), the
returned session's `session_id` is the requested id — so distinct ids
yield distinct sessions — and that property as well as key uniqueness are
preserved, so at most one session ever exists per id. -/
theorem C6_registry_uniqueness (m : SessionManager) (db db2 : DB) (lf lf2 : Bool)
    (id : String) :
    (∀ s : SessionState, m.sessions.lookup id = some s → m.get_session db lf id = (s, m)) ∧
    (m.sessions.lookup id = none →
      (m.get_session db lf id).1 = SessionState.init db lf id ∧
      (m.get_session db lf id).1.state = "idle" ∧
      (m.get_session db lf id).2.sessions =
        m.sessions ++ [(id, SessionState.init db lf id)]) ∧
    (((m.get_session db lf id).2.get_session db2 lf2 id).1 = (m.get_session db lf id).1) ∧
    ((∀ p ∈ m.sessions, p.2.session_id = p.1) →
      (m.get_session db lf id).1.session_id = id ∧
      ∀ p ∈ (m.get_session db lf id).2.sessions, p.2.session_id = p.1) ∧
    ((m.sessions.map Prod.fst).Nodup →
      ((m.get_session db lf id).2.sessions.map Prod.fst).Nodup) := by
  cases hlk : m.sessions.lookup id with
  | some s0 =>
      have hget := get_session_found m db lf id s0 hlk
      refine ⟨?_, ?_, ?_, ?_, ?_⟩
      · intro s hs
        obtain rfl : s0 = s := Option.some.inj hs
        exact hget
      · intro hn; exact Option.noConfusion hn
      · rw [hget]
        rw [get_session_found m db2 lf2 id s0 hlk]
      · intro hwf
        have hmem := mem_of_lookup_some m.sessions id s0 hlk
        rw [hget]
        exact ⟨hwf _ hmem, hwf⟩
      · intro hnd; rw [hget]; exact hnd
  | none =>
      have hget := get_session_fresh m db lf id hlk
      have hlk2 : (m.sessions ++ [(id, SessionState.init db lf id)]).lookup id =
          some (SessionState.init db lf id) :=
        lookup_append_single_of_none m.sessions id _ hlk
      refine ⟨?_, ?_, ?_, ?_, ?_⟩
      · intro s hs; exact Option.noConfusion hs
      · intro _
        exact ⟨by rw [hget], by rw [hget]; rfl, by rw [hget]⟩
      · rw [hget]
        rw [get_session_found
          { sessions := m.sessions ++ [(id, SessionState.init db lf id)] } db2 lf2 id
          (SessionState.init db lf id) hlk2]
      · intro hwf
        rw [hget]
        refine ⟨rfl, ?_⟩
        intro p hp
        rcases List.mem_append.mp hp with hp | hp
        · exact hwf p hp
        · have hpe : p = (id, SessionState.init db lf id) := by simpa using hp
          rw [hpe]
          rfl
      · intro hnd
        rw [hget]
        rw [List.map_append]
        refine List.Nodup.append hnd (List.nodup_singleton id) ?_
        intro x hx hx'
        have hxi : x = id := by simpa using hx'
        rw [hxi] at hx
        exact not_mem_keys_of_lookup_none m.sessions id hlk hx

/-- Closed witness for C6: creating `"u"` in an empty registry yields an
idle session keyed and identified by `"u"`. -/
theorem C6_registry_uniqueness_witness :
    ((SessionManager.mk []).get_session demoDB false "u").1.state = "idle" ∧
    ((SessionManager.mk []).get_session demoDB false "u").1.session_id = "u" ∧
    (((SessionManager.mk []).get_session demoDB false "u").2.sessions.map Prod.fst).Nodup := by
  have h := C6_registry_uniqueness (SessionManager.mk []) demoDB demoDB false false "u"
  exact ⟨(h.2.1 rfl).2.1, (h.2.2.2.1 (by simp)).1, h.2.2.2.2 (by simp)⟩

/-- C7 counterexample: the snapshot event that `sse_endpoint` delivers to a
newly attached subscriber has no `last_error` key at all, even when the
session carries one — while the regular status payload does carry that key.
So the claim that the synthetic status event carries the `lastError` field
is false at this concrete session. -/
theorem C7_snapshot_counterexample :
    ({ demoSession with last_error := some "boom" } : SessionState).addSubscriber.2.lookup
        "last_error" = none ∧
    ({ demoSession with last_error := some "boom" } : SessionState).last_error = some "boom" ∧
    (statusPayload { demoSession with last_error := some "boom" }).lookup "last_error" =
      some (jopt (some "boom")) := by decide

/-- C7 amended: attaching a subscriber immediately delivers to it, before
any subsequently broadcast event, exactly one synthetic `status` event
carrying the session's current `state`, `message` and `connected` fields
(but not `lastError`, which the snapshot omits); the subscriber's queue
starts empty, and an event broadcast afterwards reaches it after that
snapshot. -/
theorem C7_late_join_snapshot (s : SessionState) (e : Event) :
    s.addSubscriber.2.lookup "type" = some (JVal.jstr "status") ∧
    s.addSubscriber.2.lookup "state" = some (JVal.jstr s.state) ∧
    s.addSubscriber.2.lookup "message" = some (JVal.jstr s.message) ∧
    s.addSubscriber.2.lookup "connected" = some (JVal.jbool s.connected) ∧
    s.addSubscriber.2.lookup "last_error" = none ∧
    s.addSubscriber.1.sse_queues = s.sse_queues ++ [[]] ∧
    (s.addSubscriber.1.broadcast_event e).sse_queues =
      s.sse_queues.map (fun q => q ++ [e]) ++ [[e]] := by
  refine ⟨rfl, rfl, rfl, rfl, rfl, rfl, ?_⟩
  simp [SessionState.addSubscriber, SessionState.broadcast_event]
